import Mathlib

/-!
Shallow embedding of the MaxOS VGA text-mode console (src/kernel/kernel.c).

The 80x25 framebuffer of 16-bit cells at 0xB8000 is modelled as a single
natural number in base 65536: digit `off` (in base 65536) is the cell at
linear offset `off = y * SCREEN_WIDTH + x`.  `readCell`/`writeCell` are the
volatile 16-bit loads and stores `video_memory[off]`; a store truncates its
value to 16 bits, as the `uint16_t` assignment does.  The loops of
`clear_screen` and `scroll_screen` are modelled as the same index-by-index
loops, as left folds over their index ranges.

The cursor fields are `uint8_t` in C, so every store of a possibly-larger
value into them is reduced mod 256.  `scrolls` is a ghost event counter
incremented by each `scroll_screen` call; it corresponds to no C variable and
exists only to state "exactly one scroll" properties.

The character parameter of `print_character` and the bytes of strings are the
raw byte values 0..255 of the C `char` argument; on i386 `char` is signed, so
when a byte is used as an `int` (in `c | (DEFAULT_ATTRIBUTE << 8)`) it is
sign-extended first, which `charToCell` makes explicit.
-/

-- System constants (kernel.c lines 28-56)
def SCREEN_WIDTH : Nat := 80
def SCREEN_HEIGHT : Nat := 25
def CHARACTERS_PER_SCREEN : Nat := SCREEN_WIDTH * SCREEN_HEIGHT

def COLOR_CYAN : Nat := 0x03
def COLOR_LIGHT_GRAY : Nat := 0x07
def COLOR_LIGHT_GREEN : Nat := 0x0A
def COLOR_YELLOW : Nat := 0x0E
def COLOR_WHITE : Nat := 0x0F

-- DEFAULT_ATTRIBUTE = (DEFAULT_BACKGROUND << 4) | DEFAULT_FOREGROUND = (0 << 4) | 0x0F
def DEFAULT_ATTRIBUTE : Nat := (0x00 <<< 4) ||| 0x0F

/-- The volatile 16-bit load `video_memory[off]`: digit `off` of the
framebuffer number in base 65536. -/
def readCell (m off : Nat) : Nat := m / 65536 ^ off % 65536

/-- The volatile 16-bit store `video_memory[off] = v`: replace digit `off`
of the framebuffer number by `v` truncated to 16 bits (the `uint16_t`
assignment truncates). -/
def writeCell (m off v : Nat) : Nat :=
  m % 65536 ^ off + v % 65536 * 65536 ^ off + m / 65536 ^ (off + 1) * 65536 ^ (off + 1)

/-- The 16-bit cell value produced by `c | (attr << 8)` where `c` is a byte
read from a signed `char` (sign-extended to a 32-bit `int` first) and `attr`
is a `uint8_t`; the store then truncates to 16 bits. -/
def charToCell (c attr : Nat) : Nat :=
  (if c < 128 then c ||| (attr <<< 8) else (0xFFFFFF00 + c) ||| (attr <<< 8)) % 65536

/-- Cell holding a space in the default attribute: byte 0x20 in the low byte
and DEFAULT_ATTRIBUTE in the high byte. -/
def blankCell : Nat := 0x20 ||| (DEFAULT_ATTRIBUTE <<< 8)

/-- Console state: the framebuffer (one base-65536 digit per cell), the cursor
(`cursor_position.x`, `cursor_position.y`, both `uint8_t` in C), and a ghost
counter of `scroll_screen` invocations. -/
structure ConsoleState where
  screen : Nat
  x : Nat
  y : Nat
  scrolls : Nat

-- clear_screen (kernel.c lines 192-201): one loop storing the blank cell at
-- every offset below CHARACTERS_PER_SCREEN, then cursor reset to (0, 0).
def clear_screen (s : ConsoleState) : ConsoleState :=
  { s with
    screen := (List.range CHARACTERS_PER_SCREEN).foldl
      (fun m i => writeCell m i blankCell) s.screen,
    x := 0, y := 0 }

-- set_cursor_position (kernel.c lines 211-217): clamp each coordinate into
-- range, then assign.
def set_cursor_position (s : ConsoleState) (x y : Nat) : ConsoleState :=
  { s with
    x := if x ≥ SCREEN_WIDTH then SCREEN_WIDTH - 1 else x,
    y := if y ≥ SCREEN_HEIGHT then SCREEN_HEIGHT - 1 else y }

-- scroll_screen (kernel.c lines 338-351): the first loop runs `i` upward
-- copying `video_memory[i] = video_memory[i + SCREEN_WIDTH]` (each read is of
-- the current memory, exactly as in the C loop); the second loop fills the
-- bottom row with blank cells.  The cursor is not touched.
def scroll_screen (s : ConsoleState) : ConsoleState :=
  { s with
    screen :=
      let moved := (List.range ((SCREEN_HEIGHT - 1) * SCREEN_WIDTH)).foldl
        (fun m i => writeCell m i (readCell m (i + SCREEN_WIDTH))) s.screen
      (List.range SCREEN_WIDTH).foldl
        (fun m i => writeCell m ((SCREEN_HEIGHT - 1) * SCREEN_WIDTH + i) blankCell) moved,
    scrolls := s.scrolls + 1 }

-- The shared overflow epilogue of the newline branch and of cursor advance
-- (kernel.c lines 235-238 and 273-276): if `y` has run past the last row,
-- scroll once and clamp `y` to the last row.
def newline_overflow (s : ConsoleState) : ConsoleState :=
  if s.y ≥ SCREEN_HEIGHT then { scroll_screen s with y := SCREEN_HEIGHT - 1 } else s

-- Cursor advance after a glyph write (kernel.c lines 268-277).
def advance_wrap (s : ConsoleState) : ConsoleState :=
  if s.x ≥ SCREEN_WIDTH then newline_overflow { s with x := 0, y := (s.y + 1) % 256 } else s

-- Tab wrap (kernel.c lines 252-255): wraps to the next line but, unlike
-- `newline_overflow`, performs no scroll and no clamp of `y`.
def tab_wrap (s : ConsoleState) : ConsoleState :=
  if s.x ≥ SCREEN_WIDTH then { s with x := 0, y := (s.y + 1) % 256 } else s

-- print_character (kernel.c lines 227-278), argument as a raw byte 0..255.
-- The control comparisons against newline, carriage return and tab only ever
-- match bytes 10 / 13 / 9 (bytes ≥ 0x80 are negative as `char` and match no
-- control character).
def print_character (s : ConsoleState) (c : Nat) : ConsoleState :=
  if c = 10 then
    newline_overflow { s with x := 0, y := (s.y + 1) % 256 }
  else if c = 13 then
    { s with x := 0 }
  else if c = 9 then
    tab_wrap { s with x := ((s.x + 8) &&& 0xF8) % 256 }
  else
    advance_wrap
      { s with
        screen := writeCell s.screen (s.y * SCREEN_WIDTH + s.x) (charToCell c DEFAULT_ATTRIBUTE),
        x := (s.x + 1) % 256 }

-- print_string (kernel.c lines 287-293).  A C string argument is either the
-- null pointer (`none`) or the byte sequence up to (not including) the first
-- NUL terminator, which the `takeWhile` makes explicit.
def print_string (s : ConsoleState) (str : Option (List Nat)) : ConsoleState :=
  match str with
  | none => s
  | some l => (l.takeWhile (fun b => b ≠ 0)).foldl print_character s

-- One iteration of the print_colored_string loop body (kernel.c lines 310-328):
-- a newline byte is delegated to print_character; any other byte is written as
-- `str[i] | (color << 8)` and the cursor advanced exactly as in print_character.
def print_colored_char (color : Nat) (s : ConsoleState) (c : Nat) : ConsoleState :=
  if c = 10 then
    print_character s 10
  else
    advance_wrap
      { s with
        screen := writeCell s.screen (s.y * SCREEN_WIDTH + s.x) (charToCell c color),
        x := (s.x + 1) % 256 }

-- print_colored_string (kernel.c lines 304-329).  The local `start_offset` in
-- the C code is written but never read, so it has no observable effect.
def print_colored_string (s : ConsoleState) (str : Option (List Nat)) (color : Nat) : ConsoleState :=
  match str with
  | none => s
  | some l => (l.takeWhile (fun b => b ≠ 0)).foldl (print_colored_char color) s

-- delay_milliseconds (kernel.c lines 449-455): a busy loop over a volatile
-- counter; it touches no console state.
def delay_milliseconds (ms : Nat) (s : ConsoleState) : ConsoleState := s

-- video_initialize (kernel.c lines 174-178): empty body.
def video_initialize (s : ConsoleState) : ConsoleState := s

-- system_initialize (kernel.c lines 159-165).
def system_initialize (s : ConsoleState) : ConsoleState :=
  set_cursor_position (clear_screen ( video_initialize s)) 0 0

/-- Bytes of an ASCII string literal. -/
def strBytes (s : String) : List Nat := s.toList.map Char.toNat

-- The five logo lines (kernel.c lines 369-375), byte-for-byte.
def logo0 : String := "  __  __       _  ___   ___ "
def logo1 : String := " |  \\/  |     / \\/ __\\ / __\\"
def logo2 : String := " | \\  / |    / _ \\__ \\ / /   "
def logo3 : String := " | |\\/| |   / ___ \\__// /___ "
def logo4 : String := " |_|  |_|  /_/   \\_\\/_____| "

def bannerTitle : String := "MaxOS v2.0 - Educational Operating System"
def bannerSubtitle : String := "Built for learning and computer science education"
def infoHeader : String := "System Information:"
def infoArch : String := "Architecture: x86 (32-bit protected mode)"
def infoMemory : String := "Memory Model: Flat memory model with segmentation"
def infoVideo : String := "Video Mode: VGA text mode (80x25, 16 colors)"
def infoBoot : String := "Boot Method: BIOS bootloader with kernel loading"
def infoStatus : String := "System Status: Initialized and ready"
def statusReady : String := "System Status: Ready"
def statusCommands : String := "Available Commands: help, info, status, clear"
def statusHint : String := "Type \x27help\x27 for command information"
def statusPrompt : String := "> "

-- print_system_banner (kernel.c lines 364-387), the loop over the five logo
-- lines unrolled.
def print_system_banner (s : ConsoleState) : ConsoleState :=
  let s := set_cursor_position s 0 2
  let s := delay_milliseconds 100
    (print_colored_string (set_cursor_position s 25 2) (some (strBytes logo0)) COLOR_CYAN)
  let s := delay_milliseconds 100
    (print_colored_string (set_cursor_position s 25 3) (some (strBytes logo1)) COLOR_CYAN)
  let s := delay_milliseconds 100
    (print_colored_string (set_cursor_position s 25 4) (some (strBytes logo2)) COLOR_CYAN)
  let s := delay_milliseconds 100
    (print_colored_string (set_cursor_position s 25 5) (some (strBytes logo3)) COLOR_CYAN)
  let s := delay_milliseconds 100
    (print_colored_string (set_cursor_position s 25 6) (some (strBytes logo4)) COLOR_CYAN)
  let s := print_colored_string (set_cursor_position s 0 8) (some (strBytes bannerTitle)) COLOR_YELLOW
  print_colored_string (set_cursor_position s 0 9) (some (strBytes bannerSubtitle)) COLOR_LIGHT_GRAY

-- print_system_information (kernel.c lines 396-414).
def print_system_information (s : ConsoleState) : ConsoleState :=
  let s := print_colored_string (set_cursor_position s 0 12) (some (strBytes infoHeader)) COLOR_LIGHT_GREEN
  let s := print_string (set_cursor_position s 2 13) (some (strBytes infoArch))
  let s := print_string (set_cursor_position s 2 14) (some (strBytes infoMemory))
  let s := print_string (set_cursor_position s 2 15) (some (strBytes infoVideo))
  let s := print_string (set_cursor_position s 2 16) (some (strBytes infoBoot))
  print_string (set_cursor_position s 2 17) (some (strBytes infoStatus))

-- print_status_message (kernel.c lines 423-435).
def print_status_message (s : ConsoleState) : ConsoleState :=
  let s := print_colored_string (set_cursor_position s 0 20) (some (strBytes statusReady)) COLOR_LIGHT_GREEN
  let s := print_colored_string (set_cursor_position s 0 21) (some (strBytes statusCommands)) COLOR_YELLOW
  let s := print_colored_string (set_cursor_position s 0 22) (some (strBytes statusHint)) COLOR_LIGHT_GRAY
  print_colored_string (set_cursor_position s 0 23) (some (strBytes statusPrompt)) COLOR_WHITE

-- kernel_main (kernel.c lines 130-145); the final store to the
-- `system_status` flag touches no console state.
def kernel_main (s : ConsoleState) : ConsoleState :=
  let s := system_initialize s
  let s := print_system_banner s
  let s := print_system_information s
  print_status_message s

/-- The framebuffer contents whose first `n` cells are blank and whose higher
digits are zero: the geometric sum `blankCell * (65536^n - 1) / (65536 - 1)`,
that is, digit `i` equals `blankCell` for every `i < n`. -/
def blankRun (n : Nat) : Nat := blankCell * ((65536 ^ n - 1) / 65535)

/-- A fresh simulated framebuffer: all cells blank, cursor at the origin. -/
def freshState : ConsoleState :=
  { screen := blankRun CHARACTERS_PER_SCREEN, x := 0, y := 0, scrolls := 0 }

/-- Writing a run of raw 16-bit cell values at consecutive offsets.  This is
the canonical effect of printing a string that fits inside one row. -/
def placeCells : Nat → Nat → List Nat → Nat
  | m, _, [] => m
  | m, off, v :: vs => placeCells (writeCell m off v) (off + 1) vs

/-- Modelled from the spec: the §6 splash table, one `placeCells` run per
listed (row, col, color, text) entry over an otherwise blank screen.  The
`(row, col)` anchor is the linear offset `row * SCREEN_WIDTH + col` and each
text byte `b` is placed as the cell `b | (color << 8)`. -/
def specSplashScreen : Nat :=
  let m := blankRun CHARACTERS_PER_SCREEN
  let m := placeCells m (2 * SCREEN_WIDTH + 25) ((strBytes logo0).map (fun b => b ||| (COLOR_CYAN <<< 8)))
  let m := placeCells m (3 * SCREEN_WIDTH + 25) ((strBytes logo1).map (fun b => b ||| (COLOR_CYAN <<< 8)))
  let m := placeCells m (4 * SCREEN_WIDTH + 25) ((strBytes logo2).map (fun b => b ||| (COLOR_CYAN <<< 8)))
  let m := placeCells m (5 * SCREEN_WIDTH + 25) ((strBytes logo3).map (fun b => b ||| (COLOR_CYAN <<< 8)))
  let m := placeCells m (6 * SCREEN_WIDTH + 25) ((strBytes logo4).map (fun b => b ||| (COLOR_CYAN <<< 8)))
  let m := placeCells m (8 * SCREEN_WIDTH + 0) ((strBytes bannerTitle).map (fun b => b ||| (COLOR_YELLOW <<< 8)))
  let m := placeCells m (9 * SCREEN_WIDTH + 0) ((strBytes bannerSubtitle).map (fun b => b ||| (COLOR_LIGHT_GRAY <<< 8)))
  let m := placeCells m (12 * SCREEN_WIDTH + 0) ((strBytes infoHeader).map (fun b => b ||| (COLOR_LIGHT_GREEN <<< 8)))
  let m := placeCells m (13 * SCREEN_WIDTH + 2) ((strBytes infoArch).map (fun b => b ||| (DEFAULT_ATTRIBUTE <<< 8)))
  let m := placeCells m (14 * SCREEN_WIDTH + 2) ((strBytes infoMemory).map (fun b => b ||| (DEFAULT_ATTRIBUTE <<< 8)))
  let m := placeCells m (15 * SCREEN_WIDTH + 2) ((strBytes infoVideo).map (fun b => b ||| (DEFAULT_ATTRIBUTE <<< 8)))
  let m := placeCells m (16 * SCREEN_WIDTH + 2) ((strBytes infoBoot).map (fun b => b ||| (DEFAULT_ATTRIBUTE <<< 8)))
  let m := placeCells m (17 * SCREEN_WIDTH + 2) ((strBytes infoStatus).map (fun b => b ||| (DEFAULT_ATTRIBUTE <<< 8)))
  let m := placeCells m (20 * SCREEN_WIDTH + 0) ((strBytes statusReady).map (fun b => b ||| (COLOR_LIGHT_GREEN <<< 8)))
  let m := placeCells m (21 * SCREEN_WIDTH + 0) ((strBytes statusCommands).map (fun b => b ||| (COLOR_YELLOW <<< 8)))
  let m := placeCells m (22 * SCREEN_WIDTH + 0) ((strBytes statusHint).map (fun b => b ||| (COLOR_LIGHT_GRAY <<< 8)))
  placeCells m (23 * SCREEN_WIDTH + 0) ((strBytes statusPrompt).map (fun b => b ||| (COLOR_WHITE <<< 8)))

/-- An in-range cursor position (72, 24) on a blank screen, from which a tab
leaves the cursor out of range. -/
def tabBugState : ConsoleState :=
  { screen := blankRun CHARACTERS_PER_SCREEN, x := 72, y := 24, scrolls := 0 }


-- The cumulative screen contents after each splash entry, in program
-- order: entry k of the table in section 6 applied on top of splash(k-1).
def splash1 : Nat :=
  placeCells (blankRun CHARACTERS_PER_SCREEN) (2 * SCREEN_WIDTH + 25) ((strBytes logo0).map (fun b => b ||| (COLOR_CYAN <<< 8)))

def splash2 : Nat :=
  placeCells (splash1) (3 * SCREEN_WIDTH + 25) ((strBytes logo1).map (fun b => b ||| (COLOR_CYAN <<< 8)))

def splash3 : Nat :=
  placeCells (splash2) (4 * SCREEN_WIDTH + 25) ((strBytes logo2).map (fun b => b ||| (COLOR_CYAN <<< 8)))

def splash4 : Nat :=
  placeCells (splash3) (5 * SCREEN_WIDTH + 25) ((strBytes logo3).map (fun b => b ||| (COLOR_CYAN <<< 8)))

def splash5 : Nat :=
  placeCells (splash4) (6 * SCREEN_WIDTH + 25) ((strBytes logo4).map (fun b => b ||| (COLOR_CYAN <<< 8)))

def splash6 : Nat :=
  placeCells (splash5) (8 * SCREEN_WIDTH + 0) ((strBytes bannerTitle).map (fun b => b ||| (COLOR_YELLOW <<< 8)))

def splash7 : Nat :=
  placeCells (splash6) (9 * SCREEN_WIDTH + 0) ((strBytes bannerSubtitle).map (fun b => b ||| (COLOR_LIGHT_GRAY <<< 8)))

def splash8 : Nat :=
  placeCells (splash7) (12 * SCREEN_WIDTH + 0) ((strBytes infoHeader).map (fun b => b ||| (COLOR_LIGHT_GREEN <<< 8)))

def splash9 : Nat :=
  placeCells (splash8) (13 * SCREEN_WIDTH + 2) ((strBytes infoArch).map (fun b => b ||| (DEFAULT_ATTRIBUTE <<< 8)))

def splash10 : Nat :=
  placeCells (splash9) (14 * SCREEN_WIDTH + 2) ((strBytes infoMemory).map (fun b => b ||| (DEFAULT_ATTRIBUTE <<< 8)))

def splash11 : Nat :=
  placeCells (splash10) (15 * SCREEN_WIDTH + 2) ((strBytes infoVideo).map (fun b => b ||| (DEFAULT_ATTRIBUTE <<< 8)))

def splash12 : Nat :=
  placeCells (splash11) (16 * SCREEN_WIDTH + 2) ((strBytes infoBoot).map (fun b => b ||| (DEFAULT_ATTRIBUTE <<< 8)))

def splash13 : Nat :=
  placeCells (splash12) (17 * SCREEN_WIDTH + 2) ((strBytes infoStatus).map (fun b => b ||| (DEFAULT_ATTRIBUTE <<< 8)))

def splash14 : Nat :=
  placeCells (splash13) (20 * SCREEN_WIDTH + 0) ((strBytes statusReady).map (fun b => b ||| (COLOR_LIGHT_GREEN <<< 8)))

def splash15 : Nat :=
  placeCells (splash14) (21 * SCREEN_WIDTH + 0) ((strBytes statusCommands).map (fun b => b ||| (COLOR_YELLOW <<< 8)))

def splash16 : Nat :=
  placeCells (splash15) (22 * SCREEN_WIDTH + 0) ((strBytes statusHint).map (fun b => b ||| (COLOR_LIGHT_GRAY <<< 8)))

def splash17 : Nat :=
  placeCells (splash16) (23 * SCREEN_WIDTH + 0) ((strBytes statusPrompt).map (fun b => b ||| (COLOR_WHITE <<< 8)))

/-! ### Base-65536 digit arithmetic for the framebuffer encoding -/

lemma pow65536_pos (n : Nat) : 0 < 65536 ^ n := Nat.pow_pos (by norm_num)

lemma readCell_lt (m off : Nat) : readCell m off < 65536 :=
  Nat.mod_lt _ (by norm_num)

lemma readCell_mod (m off : Nat) : readCell m off % 65536 = readCell m off :=
  Nat.mod_mod_of_dvd _ dvd_rfl

/-- Reading a digit below a modulus boundary only depends on the remainder. -/
lemma div_mod_eq_mod_div_mod (q b x : Nat) (hq : 0 < q) :
    x / q % 65536 = x % (q * (b * 65536)) / q % 65536 := by
  conv_lhs => rw [← Nat.mod_add_div x (q * (b * 65536))]
  rw [show x % (q * (b * 65536)) + q * (b * 65536) * (x / (q * (b * 65536)))
        = x % (q * (b * 65536)) + q * (b * 65536 * (x / (q * (b * 65536)))) from by ring,
    Nat.add_mul_div_left _ _ hq,
    show b * 65536 * (x / (q * (b * 65536))) = b * (x / (q * (b * 65536))) * 65536 from by ring,
    Nat.add_mul_mod_self_right]

lemma readCell_writeCell_self (m off v : Nat) :
    readCell (writeCell m off v) off = v % 65536 := by
  unfold readCell writeCell
  have hp : 0 < 65536 ^ off := pow65536_pos off
  rw [show m % 65536 ^ off + v % 65536 * 65536 ^ off
        + m / 65536 ^ (off + 1) * 65536 ^ (off + 1)
      = m % 65536 ^ off
        + 65536 ^ off * (v % 65536 + m / 65536 ^ (off + 1) * 65536) from by
        rw [pow_succ]; ring,
    Nat.add_mul_div_left _ _ hp, Nat.div_eq_of_lt (Nat.mod_lt _ hp),
    Nat.zero_add, Nat.add_mul_mod_self_right, Nat.mod_mod_of_dvd _ dvd_rfl]

lemma readCell_writeCell_below (m off off' v : Nat) (h : off' < off) :
    readCell (writeCell m off v) off' = readCell m off' := by
  obtain ⟨u, rfl⟩ : ∃ u, off = off' + (u + 1) := ⟨off - off' - 1, by omega⟩
  unfold readCell writeCell
  have hq : 0 < 65536 ^ off' := pow65536_pos off'
  have hP : (65536 : Nat) ^ (off' + (u + 1)) = 65536 ^ off' * (65536 ^ u * 65536) := by
    rw [pow_add, pow_succ]
  have hP' : (65536 : Nat) ^ (off' + (u + 1) + 1)
      = 65536 ^ off' * (65536 ^ u * 65536) * 65536 := by
    rw [pow_succ, hP]
  rw [hP, hP']
  have key : (m % (65536 ^ off' * (65536 ^ u * 65536))
        + v % 65536 * (65536 ^ off' * (65536 ^ u * 65536))
        + m / (65536 ^ off' * (65536 ^ u * 65536) * 65536)
          * (65536 ^ off' * (65536 ^ u * 65536) * 65536))
        % (65536 ^ off' * (65536 ^ u * 65536))
      = m % (65536 ^ off' * (65536 ^ u * 65536)) := by
    rw [show m % (65536 ^ off' * (65536 ^ u * 65536))
          + v % 65536 * (65536 ^ off' * (65536 ^ u * 65536))
          + m / (65536 ^ off' * (65536 ^ u * 65536) * 65536)
            * (65536 ^ off' * (65536 ^ u * 65536) * 65536)
        = m % (65536 ^ off' * (65536 ^ u * 65536))
          + 65536 ^ off' * (65536 ^ u * 65536)
            * (v % 65536
              + m / (65536 ^ off' * (65536 ^ u * 65536) * 65536) * 65536) from by ring,
      Nat.add_mul_mod_self_left, Nat.mod_mod_of_dvd _ dvd_rfl]
  rw [div_mod_eq_mod_div_mod _ (65536 ^ u) _ hq, key,
    ← div_mod_eq_mod_div_mod _ (65536 ^ u) _ hq]

lemma readCell_writeCell_above (m off off' v : Nat) (h : off < off') :
    readCell (writeCell m off v) off' = readCell m off' := by
  obtain ⟨u, rfl⟩ : ∃ u, off' = off + (u + 1) := ⟨off' - off - 1, by omega⟩
  unfold readCell writeCell
  have hp : 0 < 65536 ^ off := pow65536_pos off
  have hQ : (65536 : Nat) ^ (off + (u + 1)) = 65536 ^ off * 65536 * 65536 ^ u := by
    rw [pow_add, pow_succ']; ring
  have hlow : m % 65536 ^ off + v % 65536 * 65536 ^ off < 65536 ^ off * 65536 := by
    have h1 : m % 65536 ^ off < 65536 ^ off := Nat.mod_lt _ hp
    have h2 : v % 65536 * 65536 ^ off ≤ 65535 * 65536 ^ off :=
      Nat.mul_le_mul_right _ (by omega)
    calc m % 65536 ^ off + v % 65536 * 65536 ^ off
        < 65536 ^ off + 65535 * 65536 ^ off := by omega
      _ = 65536 ^ off * 65536 := by ring
  have hdiv : (m % 65536 ^ off + v % 65536 * 65536 ^ off
        + m / 65536 ^ (off + 1) * 65536 ^ (off + 1)) / (65536 ^ off * 65536)
      = m / (65536 ^ off * 65536) := by
    rw [show m % 65536 ^ off + v % 65536 * 65536 ^ off
          + m / 65536 ^ (off + 1) * 65536 ^ (off + 1)
        = (m % 65536 ^ off + v % 65536 * 65536 ^ off)
          + 65536 ^ off * 65536 * (m / 65536 ^ (off + 1)) from by rw [pow_succ]; ring,
      Nat.add_mul_div_left _ _ (by positivity), Nat.div_eq_of_lt hlow, Nat.zero_add,
      pow_succ]
  rw [hQ]
  conv_lhs => rw [← Nat.div_div_eq_div_mul]
  conv_rhs => rw [← Nat.div_div_eq_div_mul]
  rw [hdiv]

lemma readCell_writeCell_ne (m off v : Nat) {j : Nat} (h : j ≠ off) :
    readCell (writeCell m off v) j = readCell m j := by
  rcases Nat.lt_or_ge j off with h' | h'
  · exact readCell_writeCell_below m off j v h'
  · exact readCell_writeCell_above m off j v (by omega)

/-! ### The fill, copy and run loops, digit by digit -/

/-- The digits produced by a loop that stores `v` at offsets
`base, base+1, ..., base+n-1`, as in the bottom-row fill of `scroll_screen`. -/
lemma fill_loop_digit (v : Nat) :
    ∀ (n : Nat) (m base j : Nat),
      readCell ((List.range n).foldl (fun acc i => writeCell acc (base + i) v) m) j
        = if base ≤ j ∧ j < base + n then v % 65536 else readCell m j := by
  intro n
  induction n with
  | zero =>
    intro m base j
    rw [List.range_zero, List.foldl_nil, if_neg (by omega)]
  | succ n ih =>
    intro m base j
    rw [List.range_succ, List.foldl_append, List.foldl_cons, List.foldl_nil]
    by_cases hj : j = base + n
    · subst hj
      rw [readCell_writeCell_self, if_pos (by omega)]
    · rw [readCell_writeCell_ne _ _ _ hj, ih]
      by_cases h2 : base ≤ j ∧ j < base + n
      · rw [if_pos h2, if_pos (by omega)]
      · rw [if_neg h2, if_neg (by omega)]

/-- The digits produced by the `clear_screen` loop, which stores the blank
cell at offsets `0, 1, ..., n-1`. -/
lemma clear_loop_digit (v : Nat) (n m j : Nat) :
    readCell ((List.range n).foldl (fun acc i => writeCell acc i v) m) j
      = if j < n then v % 65536 else readCell m j := by
  have hfun : (fun (acc : Nat) i => writeCell acc i v)
      = fun acc i => writeCell acc (0 + i) v := by
    funext acc i
    rw [Nat.zero_add]
  rw [hfun, fill_loop_digit]
  by_cases h : j < n
  · rw [if_pos (by omega), if_pos h]
  · rw [if_neg (by omega), if_neg h]

/-- The digits produced by the copy loop of `scroll_screen`: iteration `i`
stores the current digit `i + SCREEN_WIDTH` at offset `i`, and since the
writes run strictly below the reads, every read still sees the pre-loop
contents. -/
lemma copy_loop_digit :
    ∀ (n : Nat) (m j : Nat),
      readCell ((List.range n).foldl
          (fun acc i => writeCell acc i (readCell acc (i + SCREEN_WIDTH))) m) j
        = if j < n then readCell m (j + SCREEN_WIDTH) else readCell m j := by
  intro n
  induction n with
  | zero =>
    intro m j
    rw [List.range_zero, List.foldl_nil, if_neg (by omega)]
  | succ n ih =>
    intro m j
    rw [List.range_succ, List.foldl_append, List.foldl_cons, List.foldl_nil]
    by_cases hj : j = n
    · subst hj
      rw [readCell_writeCell_self, ih, if_neg (by omega), readCell_mod, if_pos (by omega)]
    · rw [readCell_writeCell_ne _ _ _ hj, ih]
      by_cases h2 : j < n
      · rw [if_pos h2, if_pos (by omega)]
      · rw [if_neg h2, if_neg (by omega)]

/-- The digits of a `placeCells` run. -/
lemma placeCells_digit :
    ∀ (vs : List Nat) (m off j : Nat),
      readCell (placeCells m off vs) j
        = if off ≤ j ∧ j < off + vs.length then vs.getD (j - off) 0 % 65536
          else readCell m j := by
  intro vs
  induction vs with
  | nil =>
    intro m off j
    rw [placeCells, if_neg (by simp)]
  | cons v vs ih =>
    intro m off j
    rw [placeCells, ih]
    by_cases h1 : off + 1 ≤ j ∧ j < off + 1 + vs.length
    · rw [if_pos h1, if_pos (by simp only [List.length_cons]; omega)]
      have hidx : j - off = (j - (off + 1)) + 1 := by omega
      rw [hidx, List.getD_cons_succ]
    · rw [if_neg h1]
      by_cases h2 : j = off
      · subst h2
        rw [readCell_writeCell_self, if_pos (by simp only [List.length_cons]; omega),
          Nat.sub_self, List.getD_cons_zero]
      · rw [readCell_writeCell_ne _ _ _ h2,
          if_neg (by simp only [List.length_cons] at h1 ⊢; omega)]

/-! ### The all-blank screen -/

lemma blankCell_lt : blankCell < 65536 := by decide

lemma blankRun_succ (n : Nat) : blankRun (n + 1) = blankRun n + blankCell * 65536 ^ n := by
  unfold blankRun
  have h1 : 1 ≤ (65536 : Nat) ^ n := Nat.one_le_pow _ _ (by norm_num)
  have h2 : (65536 : Nat) ^ (n + 1) - 1 = (65536 ^ n - 1) + 65535 * 65536 ^ n := by
    rw [pow_succ]
    omega
  rw [h2, mul_comm 65535 (65536 ^ n), Nat.add_mul_div_right _ _ (by norm_num : 0 < 65535),
    Nat.mul_add]

lemma blankRun_lt (n : Nat) : blankRun n < 65536 ^ n := by
  have h1 : 1 ≤ (65536 : Nat) ^ n := Nat.one_le_pow _ _ (by norm_num)
  have h2 : blankCell * ((65536 ^ n - 1) / 65535) ≤ 65535 * ((65536 ^ n - 1) / 65535) :=
    Nat.mul_le_mul_right _ (by decide)
  have h3 : 65535 * ((65536 ^ n - 1) / 65535) ≤ 65536 ^ n - 1 := by
    rw [mul_comm]
    exact Nat.div_mul_le_self _ _
  unfold blankRun
  omega

/-- The `clear_screen` loop in closed form: the first `n` digits become blank
and the digits above `n` are untouched. -/
lemma clear_loop_value :
    ∀ (n : Nat) (m : Nat),
      (List.range n).foldl (fun acc i => writeCell acc i blankCell) m
        = blankRun n + m / 65536 ^ n * 65536 ^ n := by
  intro n
  induction n with
  | zero =>
    intro m
    rw [List.range_zero, List.foldl_nil]
    simp [blankRun]
  | succ n ih =>
    intro m
    rw [List.range_succ, List.foldl_append, List.foldl_cons, List.foldl_nil, ih]
    unfold writeCell
    have hp : 0 < (65536 : Nat) ^ n := pow65536_pos n
    have e1 : (blankRun n + m / 65536 ^ n * 65536 ^ n) % 65536 ^ n = blankRun n := by
      rw [Nat.add_mul_mod_self_right, Nat.mod_eq_of_lt (blankRun_lt n)]
    have e2 : (blankRun n + m / 65536 ^ n * 65536 ^ n) / 65536 ^ (n + 1)
        = m / 65536 ^ (n + 1) := by
      rw [pow_succ]
      conv_lhs => rw [← Nat.div_div_eq_div_mul]
      conv_rhs => rw [← Nat.div_div_eq_div_mul]
      rw [Nat.add_mul_div_right _ _ hp, Nat.div_eq_of_lt (blankRun_lt n), Nat.zero_add]
    rw [e1, e2, Nat.mod_eq_of_lt blankCell_lt, blankRun_succ]

/-! ### Operation-level characterizations -/

lemma clear_screen_digit (s : ConsoleState) (j : Nat) :
    readCell (clear_screen s).screen j
      = if j < CHARACTERS_PER_SCREEN then blankCell else readCell s.screen j := by
  obtain ⟨m, x, y, k⟩ := s
  simp only [clear_screen]
  rw [clear_loop_digit, Nat.mod_eq_of_lt blankCell_lt]

lemma clear_screen_cursor (s : ConsoleState) :
    (clear_screen s).x = 0 ∧ (clear_screen s).y = 0 := by
  obtain ⟨m, x, y, k⟩ := s
  exact ⟨rfl, rfl⟩

lemma clear_fold_blank (n : Nat) :
    (List.range n).foldl (fun acc i => writeCell acc i blankCell) (blankRun n)
      = blankRun n := by
  rw [clear_loop_value, Nat.div_eq_of_lt (blankRun_lt n), Nat.zero_mul, Nat.add_zero]

lemma clear_screen_fresh : clear_screen freshState = freshState := by
  simp only [clear_screen, freshState]
  rw [clear_fold_blank]

lemma scroll_screen_digit (s : ConsoleState) (j : Nat) :
    readCell (scroll_screen s).screen j
      = if j < (SCREEN_HEIGHT - 1) * SCREEN_WIDTH then readCell s.screen (j + SCREEN_WIDTH)
        else if j < CHARACTERS_PER_SCREEN then blankCell
        else readCell s.screen j := by
  obtain ⟨m, x, y, k⟩ := s
  simp only [scroll_screen]
  rw [fill_loop_digit, copy_loop_digit, Nat.mod_eq_of_lt blankCell_lt]
  simp only [SCREEN_WIDTH, SCREEN_HEIGHT, CHARACTERS_PER_SCREEN]
  split_ifs <;> first | rfl | omega

lemma scroll_screen_cursor (s : ConsoleState) :
    (scroll_screen s).x = s.x ∧ (scroll_screen s).y = s.y ∧
      (scroll_screen s).scrolls = s.scrolls + 1 := by
  obtain ⟨m, x, y, k⟩ := s
  exact ⟨rfl, rfl, rfl⟩

/-! ### Cell values -/

lemma cell_lor_lt (b A : Nat) (hb : b < 256) (hA : A < 256) : b ||| (A <<< 8) < 65536 := by
  have h : A <<< 8 ||| b < 2 ^ (8 + 8) :=
    Nat.append_lt (by simpa using hb) (by simpa using hA)
  rw [Nat.lor_comm] at h
  simpa using h

lemma charToCell_low (c attr : Nat) (hc : c < 128) (hattr : attr < 256) :
    charToCell c attr = c ||| (attr <<< 8) := by
  unfold charToCell
  rw [if_pos hc, Nat.mod_eq_of_lt (cell_lor_lt _ _ (by omega) hattr)]

/-! ### Single-character steps away from the row edge -/

lemma print_character_mk (m x y k c : Nat)
    (h10 : c ≠ 10) (h13 : c ≠ 13) (h9 : c ≠ 9) (hx : x + 1 < 80) :
    print_character ⟨m, x, y, k⟩ c
      = ⟨writeCell m (y * SCREEN_WIDTH + x) (charToCell c DEFAULT_ATTRIBUTE),
         x + 1, y, k⟩ := by
  have hm : (x + 1) % 256 = x + 1 := Nat.mod_eq_of_lt (by omega)
  simp only [print_character, if_neg h10, if_neg h13, if_neg h9, advance_wrap, hm]
  rw [if_neg (by simp only [SCREEN_WIDTH]; omega)]

lemma print_colored_char_mk (m x y k c A : Nat)
    (h10 : c ≠ 10) (hx : x + 1 < 80) :
    print_colored_char A ⟨m, x, y, k⟩ c
      = ⟨writeCell m (y * SCREEN_WIDTH + x) (charToCell c A), x + 1, y, k⟩ := by
  have hm : (x + 1) % 256 = x + 1 := Nat.mod_eq_of_lt (by omega)
  simp only [print_colored_char, if_neg h10, advance_wrap, hm]
  rw [if_neg (by simp only [SCREEN_WIDTH]; omega)]

/-! ### Printing a string that fits inside the current row -/

lemma foldl_colored_run (A : Nat) (hA : A < 256) :
    ∀ (l : List Nat) (m x y k : Nat),
      (∀ b ∈ l, b < 128 ∧ b ≠ 10) → x + l.length < 80 →
      l.foldl (print_colored_char A) ⟨m, x, y, k⟩
        = ⟨placeCells m (y * SCREEN_WIDTH + x) (l.map (fun b => b ||| (A <<< 8))),
           x + l.length, y, k⟩ := by
  intro l
  induction l with
  | nil =>
    intro m x y k hb hfit
    simp [placeCells]
  | cons b l ih =>
    intro m x y k hb hfit
    have hbb := hb b (List.mem_cons_self b l)
    rw [List.foldl_cons,
      print_colored_char_mk m x y k b A hbb.2 (by simp only [List.length_cons] at hfit; omega),
      ih _ _ _ _ (fun b' hb' => hb b' (List.mem_cons_of_mem _ hb'))
        (by simp only [List.length_cons] at hfit; omega),
      charToCell_low b A hbb.1 hA, List.map_cons, List.length_cons, placeCells,
      Nat.add_assoc (y * SCREEN_WIDTH) x 1]
    congr 1
    omega

lemma foldl_string_run :
    ∀ (l : List Nat) (m x y k : Nat),
      (∀ b ∈ l, b < 128 ∧ b ≠ 10 ∧ b ≠ 13 ∧ b ≠ 9) → x + l.length < 80 →
      l.foldl print_character ⟨m, x, y, k⟩
        = ⟨placeCells m (y * SCREEN_WIDTH + x)
            (l.map (fun b => b ||| (DEFAULT_ATTRIBUTE <<< 8))),
           x + l.length, y, k⟩ := by
  intro l
  induction l with
  | nil =>
    intro m x y k hb hfit
    simp [placeCells]
  | cons b l ih =>
    intro m x y k hb hfit
    have hbb := hb b (List.mem_cons_self b l)
    rw [List.foldl_cons,
      print_character_mk m x y k b hbb.2.1 hbb.2.2.1 hbb.2.2.2
        (by simp only [List.length_cons] at hfit; omega),
      ih _ _ _ _ (fun b' hb' => hb b' (List.mem_cons_of_mem _ hb'))
        (by simp only [List.length_cons] at hfit; omega),
      charToCell_low b DEFAULT_ATTRIBUTE hbb.1 (by decide), List.map_cons,
      List.length_cons, placeCells, Nat.add_assoc (y * SCREEN_WIDTH) x 1]
    congr 1
    omega

lemma print_colored_string_mk (m x y k A : Nat) (l : List Nat)
    (hb : ∀ b ∈ l, b ≠ 0 ∧ b < 128 ∧ b ≠ 10) (hA : A < 256) (hfit : x + l.length < 80) :
    print_colored_string ⟨m, x, y, k⟩ (some l) A
      = ⟨placeCells m (y * SCREEN_WIDTH + x) (l.map (fun b => b ||| (A <<< 8))),
         x + l.length, y, k⟩ := by
  show (l.takeWhile (fun b => b ≠ 0)).foldl (print_colored_char A) ⟨m, x, y, k⟩ = _
  rw [List.takeWhile_eq_self_iff.mpr (fun b hb' => decide_eq_true (hb b hb').1)]
  exact foldl_colored_run A hA l m x y k (fun b hb' => (hb b hb').2) hfit

lemma print_string_mk (m x y k : Nat) (l : List Nat)
    (hb : ∀ b ∈ l, b ≠ 0 ∧ b < 128 ∧ b ≠ 10 ∧ b ≠ 13 ∧ b ≠ 9) (hfit : x + l.length < 80) :
    print_string ⟨m, x, y, k⟩ (some l)
      = ⟨placeCells m (y * SCREEN_WIDTH + x)
          (l.map (fun b => b ||| (DEFAULT_ATTRIBUTE <<< 8))),
         x + l.length, y, k⟩ := by
  show (l.takeWhile (fun b => b ≠ 0)).foldl print_character ⟨m, x, y, k⟩ = _
  rw [List.takeWhile_eq_self_iff.mpr (fun b hb' => decide_eq_true (hb b hb').1)]
  exact foldl_string_run l m x y k (fun b hb' => (hb b hb').2) hfit

lemma set_cursor_position_mk (m x y k a b : Nat) (ha : a < 80) (hb : b < 25) :
    set_cursor_position ⟨m, x, y, k⟩ a b = ⟨m, a, b, k⟩ := by
  simp only [set_cursor_position, SCREEN_WIDTH, SCREEN_HEIGHT]
  rw [if_neg (by omega), if_neg (by omega)]


/-! ### The full splash run -/

set_option maxRecDepth 4000 in
set_option maxHeartbeats 2000000 in
lemma splash_main : kernel_main freshState = ⟨specSplashScreen, 2, 23, 0⟩ := by
  have d1 : set_cursor_position ⟨blankRun CHARACTERS_PER_SCREEN, 0, 0, 0⟩ 0 0 = ⟨blankRun CHARACTERS_PER_SCREEN, 0, 0, 0⟩ :=
    set_cursor_position_mk (blankRun CHARACTERS_PER_SCREEN) (0) (0) 0 0 0 (by decide) (by decide)
  have d2 : set_cursor_position ⟨blankRun CHARACTERS_PER_SCREEN, 0, 0, 0⟩ 0 2 = ⟨blankRun CHARACTERS_PER_SCREEN, 0, 2, 0⟩ :=
    set_cursor_position_mk (blankRun CHARACTERS_PER_SCREEN) (0) (0) 0 0 2 (by decide) (by decide)
  have d3 : set_cursor_position ⟨blankRun CHARACTERS_PER_SCREEN, 0, 2, 0⟩ 25 2 = ⟨blankRun CHARACTERS_PER_SCREEN, 25, 2, 0⟩ :=
    set_cursor_position_mk (blankRun CHARACTERS_PER_SCREEN) (0) (2) 0 25 2 (by decide) (by decide)
  have p1 : print_colored_string ⟨blankRun CHARACTERS_PER_SCREEN, 25, 2, 0⟩ (some (strBytes logo0)) COLOR_CYAN
      = ⟨splash1, 25 + (strBytes logo0).length, 2, 0⟩ :=
    print_colored_string_mk (blankRun CHARACTERS_PER_SCREEN) 25 2 0 COLOR_CYAN (strBytes logo0)
      (by decide) (by decide) (by decide)
  have d4 : set_cursor_position ⟨splash1, 25 + (strBytes logo0).length, 2, 0⟩ 25 3 = ⟨splash1, 25, 3, 0⟩ :=
    set_cursor_position_mk (splash1) (25 + (strBytes logo0).length) (2) 0 25 3 (by decide) (by decide)
  have p2 : print_colored_string ⟨splash1, 25, 3, 0⟩ (some (strBytes logo1)) COLOR_CYAN
      = ⟨splash2, 25 + (strBytes logo1).length, 3, 0⟩ :=
    print_colored_string_mk (splash1) 25 3 0 COLOR_CYAN (strBytes logo1)
      (by decide) (by decide) (by decide)
  have d5 : set_cursor_position ⟨splash2, 25 + (strBytes logo1).length, 3, 0⟩ 25 4 = ⟨splash2, 25, 4, 0⟩ :=
    set_cursor_position_mk (splash2) (25 + (strBytes logo1).length) (3) 0 25 4 (by decide) (by decide)
  have p3 : print_colored_string ⟨splash2, 25, 4, 0⟩ (some (strBytes logo2)) COLOR_CYAN
      = ⟨splash3, 25 + (strBytes logo2).length, 4, 0⟩ :=
    print_colored_string_mk (splash2) 25 4 0 COLOR_CYAN (strBytes logo2)
      (by decide) (by decide) (by decide)
  have d6 : set_cursor_position ⟨splash3, 25 + (strBytes logo2).length, 4, 0⟩ 25 5 = ⟨splash3, 25, 5, 0⟩ :=
    set_cursor_position_mk (splash3) (25 + (strBytes logo2).length) (4) 0 25 5 (by decide) (by decide)
  have p4 : print_colored_string ⟨splash3, 25, 5, 0⟩ (some (strBytes logo3)) COLOR_CYAN
      = ⟨splash4, 25 + (strBytes logo3).length, 5, 0⟩ :=
    print_colored_string_mk (splash3) 25 5 0 COLOR_CYAN (strBytes logo3)
      (by decide) (by decide) (by decide)
  have d7 : set_cursor_position ⟨splash4, 25 + (strBytes logo3).length, 5, 0⟩ 25 6 = ⟨splash4, 25, 6, 0⟩ :=
    set_cursor_position_mk (splash4) (25 + (strBytes logo3).length) (5) 0 25 6 (by decide) (by decide)
  have p5 : print_colored_string ⟨splash4, 25, 6, 0⟩ (some (strBytes logo4)) COLOR_CYAN
      = ⟨splash5, 25 + (strBytes logo4).length, 6, 0⟩ :=
    print_colored_string_mk (splash4) 25 6 0 COLOR_CYAN (strBytes logo4)
      (by decide) (by decide) (by decide)
  have d8 : set_cursor_position ⟨splash5, 25 + (strBytes logo4).length, 6, 0⟩ 0 8 = ⟨splash5, 0, 8, 0⟩ :=
    set_cursor_position_mk (splash5) (25 + (strBytes logo4).length) (6) 0 0 8 (by decide) (by decide)
  have p6 : print_colored_string ⟨splash5, 0, 8, 0⟩ (some (strBytes bannerTitle)) COLOR_YELLOW
      = ⟨splash6, 0 + (strBytes bannerTitle).length, 8, 0⟩ :=
    print_colored_string_mk (splash5) 0 8 0 COLOR_YELLOW (strBytes bannerTitle)
      (by decide) (by decide) (by decide)
  have d9 : set_cursor_position ⟨splash6, 0 + (strBytes bannerTitle).length, 8, 0⟩ 0 9 = ⟨splash6, 0, 9, 0⟩ :=
    set_cursor_position_mk (splash6) (0 + (strBytes bannerTitle).length) (8) 0 0 9 (by decide) (by decide)
  have p7 : print_colored_string ⟨splash6, 0, 9, 0⟩ (some (strBytes bannerSubtitle)) COLOR_LIGHT_GRAY
      = ⟨splash7, 0 + (strBytes bannerSubtitle).length, 9, 0⟩ :=
    print_colored_string_mk (splash6) 0 9 0 COLOR_LIGHT_GRAY (strBytes bannerSubtitle)
      (by decide) (by decide) (by decide)
  have d10 : set_cursor_position ⟨splash7, 0 + (strBytes bannerSubtitle).length, 9, 0⟩ 0 12 = ⟨splash7, 0, 12, 0⟩ :=
    set_cursor_position_mk (splash7) (0 + (strBytes bannerSubtitle).length) (9) 0 0 12 (by decide) (by decide)
  have p8 : print_colored_string ⟨splash7, 0, 12, 0⟩ (some (strBytes infoHeader)) COLOR_LIGHT_GREEN
      = ⟨splash8, 0 + (strBytes infoHeader).length, 12, 0⟩ :=
    print_colored_string_mk (splash7) 0 12 0 COLOR_LIGHT_GREEN (strBytes infoHeader)
      (by decide) (by decide) (by decide)
  have d11 : set_cursor_position ⟨splash8, 0 + (strBytes infoHeader).length, 12, 0⟩ 2 13 = ⟨splash8, 2, 13, 0⟩ :=
    set_cursor_position_mk (splash8) (0 + (strBytes infoHeader).length) (12) 0 2 13 (by decide) (by decide)
  have p9 : print_string ⟨splash8, 2, 13, 0⟩ (some (strBytes infoArch))
      = ⟨splash9, 2 + (strBytes infoArch).length, 13, 0⟩ :=
    print_string_mk (splash8) 2 13 0 (strBytes infoArch) (by decide) (by decide)
  have d12 : set_cursor_position ⟨splash9, 2 + (strBytes infoArch).length, 13, 0⟩ 2 14 = ⟨splash9, 2, 14, 0⟩ :=
    set_cursor_position_mk (splash9) (2 + (strBytes infoArch).length) (13) 0 2 14 (by decide) (by decide)
  have p10 : print_string ⟨splash9, 2, 14, 0⟩ (some (strBytes infoMemory))
      = ⟨splash10, 2 + (strBytes infoMemory).length, 14, 0⟩ :=
    print_string_mk (splash9) 2 14 0 (strBytes infoMemory) (by decide) (by decide)
  have d13 : set_cursor_position ⟨splash10, 2 + (strBytes infoMemory).length, 14, 0⟩ 2 15 = ⟨splash10, 2, 15, 0⟩ :=
    set_cursor_position_mk (splash10) (2 + (strBytes infoMemory).length) (14) 0 2 15 (by decide) (by decide)
  have p11 : print_string ⟨splash10, 2, 15, 0⟩ (some (strBytes infoVideo))
      = ⟨splash11, 2 + (strBytes infoVideo).length, 15, 0⟩ :=
    print_string_mk (splash10) 2 15 0 (strBytes infoVideo) (by decide) (by decide)
  have d14 : set_cursor_position ⟨splash11, 2 + (strBytes infoVideo).length, 15, 0⟩ 2 16 = ⟨splash11, 2, 16, 0⟩ :=
    set_cursor_position_mk (splash11) (2 + (strBytes infoVideo).length) (15) 0 2 16 (by decide) (by decide)
  have p12 : print_string ⟨splash11, 2, 16, 0⟩ (some (strBytes infoBoot))
      = ⟨splash12, 2 + (strBytes infoBoot).length, 16, 0⟩ :=
    print_string_mk (splash11) 2 16 0 (strBytes infoBoot) (by decide) (by decide)
  have d15 : set_cursor_position ⟨splash12, 2 + (strBytes infoBoot).length, 16, 0⟩ 2 17 = ⟨splash12, 2, 17, 0⟩ :=
    set_cursor_position_mk (splash12) (2 + (strBytes infoBoot).length) (16) 0 2 17 (by decide) (by decide)
  have p13 : print_string ⟨splash12, 2, 17, 0⟩ (some (strBytes infoStatus))
      = ⟨splash13, 2 + (strBytes infoStatus).length, 17, 0⟩ :=
    print_string_mk (splash12) 2 17 0 (strBytes infoStatus) (by decide) (by decide)
  have d16 : set_cursor_position ⟨splash13, 2 + (strBytes infoStatus).length, 17, 0⟩ 0 20 = ⟨splash13, 0, 20, 0⟩ :=
    set_cursor_position_mk (splash13) (2 + (strBytes infoStatus).length) (17) 0 0 20 (by decide) (by decide)
  have p14 : print_colored_string ⟨splash13, 0, 20, 0⟩ (some (strBytes statusReady)) COLOR_LIGHT_GREEN
      = ⟨splash14, 0 + (strBytes statusReady).length, 20, 0⟩ :=
    print_colored_string_mk (splash13) 0 20 0 COLOR_LIGHT_GREEN (strBytes statusReady)
      (by decide) (by decide) (by decide)
  have d17 : set_cursor_position ⟨splash14, 0 + (strBytes statusReady).length, 20, 0⟩ 0 21 = ⟨splash14, 0, 21, 0⟩ :=
    set_cursor_position_mk (splash14) (0 + (strBytes statusReady).length) (20) 0 0 21 (by decide) (by decide)
  have p15 : print_colored_string ⟨splash14, 0, 21, 0⟩ (some (strBytes statusCommands)) COLOR_YELLOW
      = ⟨splash15, 0 + (strBytes statusCommands).length, 21, 0⟩ :=
    print_colored_string_mk (splash14) 0 21 0 COLOR_YELLOW (strBytes statusCommands)
      (by decide) (by decide) (by decide)
  have d18 : set_cursor_position ⟨splash15, 0 + (strBytes statusCommands).length, 21, 0⟩ 0 22 = ⟨splash15, 0, 22, 0⟩ :=
    set_cursor_position_mk (splash15) (0 + (strBytes statusCommands).length) (21) 0 0 22 (by decide) (by decide)
  have p16 : print_colored_string ⟨splash15, 0, 22, 0⟩ (some (strBytes statusHint)) COLOR_LIGHT_GRAY
      = ⟨splash16, 0 + (strBytes statusHint).length, 22, 0⟩ :=
    print_colored_string_mk (splash15) 0 22 0 COLOR_LIGHT_GRAY (strBytes statusHint)
      (by decide) (by decide) (by decide)
  have d19 : set_cursor_position ⟨splash16, 0 + (strBytes statusHint).length, 22, 0⟩ 0 23 = ⟨splash16, 0, 23, 0⟩ :=
    set_cursor_position_mk (splash16) (0 + (strBytes statusHint).length) (22) 0 0 23 (by decide) (by decide)
  have p17 : print_colored_string ⟨splash16, 0, 23, 0⟩ (some (strBytes statusPrompt)) COLOR_WHITE
      = ⟨splash17, 0 + (strBytes statusPrompt).length, 23, 0⟩ :=
    print_colored_string_mk (splash16) 0 23 0 COLOR_WHITE (strBytes statusPrompt)
      (by decide) (by decide) (by decide)
  simp only [kernel_main, system_initialize, video_initialize, print_system_banner,
    print_system_information, print_status_message, delay_milliseconds]
  rw [clear_screen_fresh]
  simp only [freshState]
  rw [d1, d2, d3, p1, d4, p2, d5, p3, d6, p4, d7, p5, d8, p6, d9, p7, d10, p8, d11, p9, d12, p10, d13, p11, d14, p12, d15, p13, d16, p14, d17, p15, d18, p16, d19, p17]
  rw [show 0 + (strBytes statusPrompt).length = 2 from by decide]
  rfl

/-! ### Claim theorems -/

/-- C1: the claim: after every public console operation from an in-range
cursor the cursor stays in range, in particular after a tab from any in-range
position including the last row.  The code violates this: from the in-range
cursor (72, 24), printing a tab wraps to column 0 and increments the row
without the scroll-and-clamp step that the newline and advance paths perform,
leaving the cursor at (0, 25) with y out of range. -/
theorem C1_tab_cursor_out_of_range :
    (print_character tabBugState 9).x = 0 ∧
    (print_character tabBugState 9).y = 25 ∧
    ¬ (print_character tabBugState 9).y < SCREEN_HEIGHT := by
  refine ⟨rfl, rfl, by decide⟩

/-- C2: after clear_screen, every one of the 80x25 framebuffer cells holds
the blank cell (a space with the default attribute) and the cursor is (0, 0). -/
theorem C2_clear_screen (s : ConsoleState) (cx cy : Nat) (hx : cx < 80) (hy : cy < 25) :
    readCell (clear_screen s).screen (cy * SCREEN_WIDTH + cx) = blankCell ∧
    (clear_screen s).x = 0 ∧ (clear_screen s).y = 0 := by
  refine ⟨?_, (clear_screen_cursor s).1, (clear_screen_cursor s).2⟩
  rw [clear_screen_digit,
    if_pos (by simp only [SCREEN_WIDTH, SCREEN_HEIGHT, CHARACTERS_PER_SCREEN]; omega)]

/-- C2 witness at the fresh framebuffer and cell (0, 0). -/
theorem C2_clear_screen_witness :
    readCell (clear_screen freshState).screen (0 * SCREEN_WIDTH + 0) = blankCell ∧
    (clear_screen freshState).x = 0 ∧ (clear_screen freshState).y = 0 :=
  C2_clear_screen freshState 0 0 (by decide) (by decide)

set_option maxRecDepth 4000 in
/-- C3 as stated fails for bytes at or above 0x80: printing byte 0x80 at the
in-range cursor (0, 0) of a fresh screen stores the cell 0xFF80, whose
attribute byte is 0xFF, not (0x80 | DEFAULT_ATTRIBUTE << 8) = 0x0F80, because
the signed char argument is sign-extended before the attribute is OR-ed in. -/
theorem C3_counterexample :
    readCell (print_character freshState 128).screen 0 = 0xFF80 ∧
    ¬ readCell (print_character freshState 128).screen 0
        = 128 ||| (DEFAULT_ATTRIBUTE <<< 8) := by
  constructor <;> decide

/-- C3 amended: for every byte c below 0x80 that is not a newline, carriage
return or tab, and every in-range cursor (x, y) with x < 79: print_character c
sets the cell at (x, y) to (c, DEFAULT_ATTRIBUTE), moves the cursor to
(x + 1, y), and leaves every other framebuffer cell unchanged. -/
theorem C3_write_locality (s : ConsoleState) (c : Nat)
    (hc : c < 128) (h10 : c ≠ 10) (h13 : c ≠ 13) (h9 : c ≠ 9)
    (hx : s.x < 79) (hy : s.y < 25) :
    readCell (print_character s c).screen (s.y * SCREEN_WIDTH + s.x)
      = c ||| (DEFAULT_ATTRIBUTE <<< 8) ∧
    (print_character s c).x = s.x + 1 ∧
    (print_character s c).y = s.y ∧
    ∀ j, j ≠ s.y * SCREEN_WIDTH + s.x →
      readCell (print_character s c).screen j = readCell s.screen j := by
  obtain ⟨m, x, y, k⟩ := s
  dsimp only at hx hy ⊢
  rw [print_character_mk m x y k c h10 h13 h9 (by omega)]
  refine ⟨?_, rfl, rfl, ?_⟩
  · rw [readCell_writeCell_self, charToCell_low c DEFAULT_ATTRIBUTE hc (by decide),
      Nat.mod_eq_of_lt (cell_lor_lt c DEFAULT_ATTRIBUTE (by omega) (by decide))]
  · intro j hj
    exact readCell_writeCell_ne _ _ _ hj

/-- C3 witness: printing byte 65 at the fresh framebuffer writes exactly the
cell (65, DEFAULT_ATTRIBUTE) at offset 0. -/
theorem C3_write_locality_witness :
    readCell (print_character freshState 65).screen (0 * SCREEN_WIDTH + 0)
      = 65 ||| (DEFAULT_ATTRIBUTE <<< 8) :=
  (C3_write_locality freshState 65 (by decide) (by decide) (by decide) (by decide)
    (by decide) (by decide)).1

/-! ### The row edge and the bottom-right corner -/

lemma print_character_mk_wrap (m y k c : Nat)
    (h10 : c ≠ 10) (h13 : c ≠ 13) (h9 : c ≠ 9) (hy : y < 24) :
    print_character ⟨m, 79, y, k⟩ c
      = ⟨writeCell m (y * SCREEN_WIDTH + 79) (charToCell c DEFAULT_ATTRIBUTE),
         0, y + 1, k⟩ := by
  simp only [print_character, if_neg h10, if_neg h13, if_neg h9, advance_wrap,
    newline_overflow, SCREEN_WIDTH, SCREEN_HEIGHT]
  split_ifs with h1 h2
  · exfalso; omega
  · congr 1
    omega
  · exfalso; omega

lemma print_character_mk_corner (m k c : Nat)
    (h10 : c ≠ 10) (h13 : c ≠ 13) (h9 : c ≠ 9) :
    print_character ⟨m, 79, 24, k⟩ c
      = { scroll_screen
            ⟨writeCell m (24 * SCREEN_WIDTH + 79) (charToCell c DEFAULT_ATTRIBUTE),
             0, 25, k⟩ with y := 24 } := by
  simp only [print_character, if_neg h10, if_neg h13, if_neg h9, advance_wrap,
    newline_overflow, SCREEN_WIDTH, SCREEN_HEIGHT]
  split_ifs with h1 h2
  · rfl
  · exfalso; omega
  · exfalso; omega

lemma print_character_mk_newline_last (m x k : Nat) :
    print_character ⟨m, x, 24, k⟩ 10
      = { scroll_screen ⟨m, 0, 25, k⟩ with y := 24 } := by
  simp only [print_character, newline_overflow, SCREEN_HEIGHT]
  norm_num

/-- C4: writing a non-control byte at (79, y) with y < 24 leaves the cursor at
(0, y + 1) with no scroll; writing one at (79, 24) writes that cell and then
scrolls exactly once, leaving the cursor at (0, 24); and a newline with the
cursor on the last row scrolls exactly once and leaves the cursor at (0, 24). -/
theorem C4_wrap_and_scroll :
    (∀ (s : ConsoleState) (c : Nat), c ≠ 10 → c ≠ 13 → c ≠ 9 →
      s.x = 79 → s.y < 24 →
      (print_character s c).x = 0 ∧ (print_character s c).y = s.y + 1 ∧
      (print_character s c).scrolls = s.scrolls) ∧
    (∀ (s : ConsoleState) (c : Nat), c ≠ 10 → c ≠ 13 → c ≠ 9 →
      s.x = 79 → s.y = 24 →
      (print_character s c).screen
          = (scroll_screen { s with
              screen := writeCell s.screen (24 * SCREEN_WIDTH + 79)
                (charToCell c DEFAULT_ATTRIBUTE) }).screen ∧
      (print_character s c).x = 0 ∧ (print_character s c).y = 24 ∧
      (print_character s c).scrolls = s.scrolls + 1) ∧
    (∀ s : ConsoleState, s.y = 24 →
      (print_character s 10).x = 0 ∧ (print_character s 10).y = 24 ∧
      (print_character s 10).scrolls = s.scrolls + 1 ∧
      (print_character s 10).screen = (scroll_screen s).screen) := by
  refine ⟨?_, ?_, ?_⟩
  · intro s c h10 h13 h9 hx hy
    obtain ⟨m, x, y, k⟩ := s
    dsimp only at hx hy ⊢
    subst hx
    rw [print_character_mk_wrap m y k c h10 h13 h9 hy]
    exact ⟨rfl, rfl, rfl⟩
  · intro s c h10 h13 h9 hx hy
    obtain ⟨m, x, y, k⟩ := s
    dsimp only at hx hy ⊢
    subst hx
    subst hy
    rw [print_character_mk_corner m k c h10 h13 h9]
    simp [scroll_screen]
  · intro s hy
    obtain ⟨m, x, y, k⟩ := s
    dsimp only at hy ⊢
    subst hy
    rw [print_character_mk_newline_last m x k]
    simp [scroll_screen]

/-- C4 witness: the three cases at concrete inputs on the fresh framebuffer:
byte 66 at (79, 5), byte 66 at (79, 24), and a newline at (3, 24). -/
theorem C4_wrap_and_scroll_witness :
    ((print_character ⟨blankRun CHARACTERS_PER_SCREEN, 79, 5, 0⟩ 66).x = 0 ∧
      (print_character ⟨blankRun CHARACTERS_PER_SCREEN, 79, 5, 0⟩ 66).y = 5 + 1 ∧
      (print_character ⟨blankRun CHARACTERS_PER_SCREEN, 79, 5, 0⟩ 66).scrolls = 0) ∧
    ((print_character ⟨blankRun CHARACTERS_PER_SCREEN, 79, 24, 0⟩ 66).scrolls = 0 + 1) ∧
    ((print_character ⟨blankRun CHARACTERS_PER_SCREEN, 3, 24, 0⟩ 10).x = 0 ∧
      (print_character ⟨blankRun CHARACTERS_PER_SCREEN, 3, 24, 0⟩ 10).y = 24) :=
  ⟨C4_wrap_and_scroll.1 ⟨blankRun CHARACTERS_PER_SCREEN, 79, 5, 0⟩ 66
      (by decide) (by decide) (by decide) rfl (by decide),
   (C4_wrap_and_scroll.2.1 ⟨blankRun CHARACTERS_PER_SCREEN, 79, 24, 0⟩ 66
      (by decide) (by decide) (by decide) rfl rfl).2.2.2,
   ⟨(C4_wrap_and_scroll.2.2 ⟨blankRun CHARACTERS_PER_SCREEN, 3, 24, 0⟩ rfl).1,
    (C4_wrap_and_scroll.2.2 ⟨blankRun CHARACTERS_PER_SCREEN, 3, 24, 0⟩ rfl).2.1⟩⟩

/-- C5: scroll_screen leaves row r (r < 24) equal to what row r + 1 contained
before the call, fills row 24 entirely with blank cells, and does not modify
the cursor. -/
theorem C5_scroll (s : ConsoleState) :
    (∀ r col, r < 24 → col < 80 →
      readCell (scroll_screen s).screen (r * SCREEN_WIDTH + col)
        = readCell s.screen ((r + 1) * SCREEN_WIDTH + col)) ∧
    (∀ col, col < 80 →
      readCell (scroll_screen s).screen (24 * SCREEN_WIDTH + col) = blankCell) ∧
    (scroll_screen s).x = s.x ∧ (scroll_screen s).y = s.y := by
  refine ⟨?_, ?_, (scroll_screen_cursor s).1, (scroll_screen_cursor s).2.1⟩
  · intro r col hr hcol
    rw [scroll_screen_digit,
      if_pos (by simp only [SCREEN_WIDTH, SCREEN_HEIGHT]; omega)]
    congr 1
    simp only [SCREEN_WIDTH]
    omega
  · intro col hcol
    rw [scroll_screen_digit,
      if_neg (by simp only [SCREEN_WIDTH, SCREEN_HEIGHT]; omega),
      if_pos (by simp only [SCREEN_WIDTH, SCREEN_HEIGHT, CHARACTERS_PER_SCREEN]; omega)]

/-- C5 witness on the fresh framebuffer: cell (0, 0) receives old cell (0, 1)
and the bottom-left cell becomes blank, with the cursor untouched. -/
theorem C5_scroll_witness :
    readCell (scroll_screen freshState).screen (0 * SCREEN_WIDTH + 0)
        = readCell freshState.screen ((0 + 1) * SCREEN_WIDTH + 0) ∧
    readCell (scroll_screen freshState).screen (24 * SCREEN_WIDTH + 0) = blankCell ∧
    (scroll_screen freshState).x = freshState.x ∧
    (scroll_screen freshState).y = freshState.y :=
  ⟨(C5_scroll freshState).1 0 0 (by decide) (by decide),
   (C5_scroll freshState).2.1 0 (by decide),
   (C5_scroll freshState).2.2.1, (C5_scroll freshState).2.2.2⟩

/-! ### The tab law -/

lemma tab_result_mk (m x y k : Nat) :
    print_character ⟨m, x, y, k⟩ 9
      = if ((x + 8) &&& 0xF8) % 256 ≥ 80
        then ⟨m, 0, (y + 1) % 256, k⟩
        else ⟨m, ((x + 8) &&& 0xF8) % 256, y, k⟩ := by
  simp only [print_character, tab_wrap, SCREEN_WIDTH]
  norm_num

lemma tab_law_arith :
    ∀ x, x < 80 →
      (if ((x + 8) &&& 0xF8) % 256 ≥ 80 then 0 else ((x + 8) &&& 0xF8) % 256) % 8 = 0 ∧
      0 < ((if ((x + 8) &&& 0xF8) % 256 ≥ 80 then 0
            else ((x + 8) &&& 0xF8) % 256) + 80 - x) % 80 ∧
      ((if ((x + 8) &&& 0xF8) % 256 ≥ 80 then 0
        else ((x + 8) &&& 0xF8) % 256) + 80 - x) % 80 ≤ 8 := by decide

/-- C6: from any in-range starting column x, a tab moves the cursor to a
column x' that is a multiple of 8 with 0 < x' - x <= 8 measured modulo the
wraparound at the width 80 (x' is 0 on the next line after a wrap), and no
framebuffer cell changes. -/
theorem C6_tab_law (s : ConsoleState) (hx : s.x < 80) :
    (print_character s 9).x % 8 = 0 ∧
    0 < ((print_character s 9).x + 80 - s.x) % 80 ∧
    ((print_character s 9).x + 80 - s.x) % 80 ≤ 8 ∧
    (print_character s 9).screen = s.screen := by
  obtain ⟨m, x, y, k⟩ := s
  dsimp only at hx ⊢
  rw [tab_result_mk]
  have h := tab_law_arith x hx
  by_cases hcase : ((x + 8) &&& 0xF8) % 256 ≥ 80
  · rw [if_pos hcase] at h ⊢
    exact ⟨h.1, h.2.1, h.2.2, rfl⟩
  · rw [if_neg hcase] at h ⊢
    exact ⟨h.1, h.2.1, h.2.2, rfl⟩

/-- C6 witness at column 3 on the last row of the fresh framebuffer. -/
theorem C6_tab_law_witness :
    (print_character ⟨blankRun CHARACTERS_PER_SCREEN, 3, 24, 0⟩ 9).x % 8 = 0 ∧
    0 < ((print_character ⟨blankRun CHARACTERS_PER_SCREEN, 3, 24, 0⟩ 9).x + 80 - 3) % 80 ∧
    ((print_character ⟨blankRun CHARACTERS_PER_SCREEN, 3, 24, 0⟩ 9).x + 80 - 3) % 80 ≤ 8 ∧
    (print_character ⟨blankRun CHARACTERS_PER_SCREEN, 3, 24, 0⟩ 9).screen
      = blankRun CHARACTERS_PER_SCREEN :=
  C6_tab_law ⟨blankRun CHARACTERS_PER_SCREEN, 3, 24, 0⟩ (by decide)

/-- C8: print_string with a null pointer and print_colored_string with a null
pointer and any attribute leave the framebuffer and cursor unchanged. -/
theorem C8_null_noop (s : ConsoleState) (A : Nat) :
    print_string s none = s ∧ print_colored_string s none A = s :=
  ⟨rfl, rfl⟩

/-! ### Colored writes -/

set_option maxRecDepth 2000 in
lemma attr_byte_arith :
    ∀ b, b < 128 → ∀ a, a < 256 → (b ||| (a <<< 8)) / 256 = a := by decide

lemma charToCell_mod (c a : Nat) : charToCell c a % 65536 = charToCell c a := by
  unfold charToCell
  exact Nat.mod_mod_of_dvd _ dvd_rfl

lemma takeWhile_nonzero_singleton (c : Nat) (hc : c ≠ 0) :
    ([c].takeWhile (fun b => b ≠ 0)) = [c] :=
  List.takeWhile_eq_self_iff.mpr (fun b hb => by
    rw [List.mem_singleton] at hb
    subst hb
    exact decide_eq_true hc)

set_option maxRecDepth 4000 in
/-- C7 as stated fails for bytes at or above 0x80: the byte 0x80 is not a
control byte, yet print_colored_string stores it with attribute byte 0xFF
rather than the requested attribute, here COLOR_YELLOW. -/
theorem C7_counterexample :
    readCell (print_colored_string freshState (some [128]) COLOR_YELLOW).screen 0 / 256
        = 0xFF ∧
    ¬ readCell (print_colored_string freshState (some [128]) COLOR_YELLOW).screen 0 / 256
        = COLOR_YELLOW := by
  constructor <;> decide

/-! ### A colored write run at consecutive linear offsets -/

lemma print_colored_char_off (A m off k b : Nat) (hb : b ≠ 10) (hoff : off < 1999) :
    print_colored_char A ⟨m, off % 80, off / 80, k⟩ b
      = ⟨writeCell m off (charToCell b A), (off + 1) % 80, (off + 1) / 80, k⟩ := by
  simp only [print_colored_char, if_neg hb, advance_wrap, newline_overflow,
    SCREEN_WIDTH, SCREEN_HEIGHT]
  rw [show off / 80 * 80 + off % 80 = off from by omega,
    show (off % 80 + 1) % 256 = off % 80 + 1 from by omega]
  split_ifs with h1 h2
  · exfalso
    omega
  · rw [show (off / 80 + 1) % 256 = off / 80 + 1 from by omega]
    congr 1 <;> omega
  · congr 1 <;> omega

lemma foldl_colored_run_off (A : Nat) (hA : A < 256) :
    ∀ (l : List Nat) (m off k : Nat),
      (∀ b ∈ l, b < 128 ∧ b ≠ 10) → off + l.length < 2000 →
      l.foldl (print_colored_char A) ⟨m, off % 80, off / 80, k⟩
        = ⟨placeCells m off (l.map (fun b => b ||| (A <<< 8))),
           (off + l.length) % 80, (off + l.length) / 80, k⟩ := by
  intro l
  induction l with
  | nil =>
    intro m off k hb hfit
    simp [placeCells]
  | cons b l ih =>
    intro m off k hb hfit
    have hbb := hb b (List.mem_cons_self b l)
    rw [List.foldl_cons,
      print_colored_char_off A m off k b hbb.2
        (by simp only [List.length_cons] at hfit; omega),
      ih (writeCell m off (charToCell b A)) (off + 1) k
        (fun b' hb' => hb b' (List.mem_cons_of_mem _ hb'))
        (by simp only [List.length_cons] at hfit; omega),
      charToCell_low b A hbb.1 hA, List.map_cons, List.length_cons, placeCells]
    congr 1 <;> omega

/-- C7 amended: for a string of bytes in 0x01..0x7F none of which is a tab,
newline or carriage return, written from an in-range cursor such that the run
stays on the screen (no scroll is triggered), print_colored_string writes
every byte with the requested attribute A at consecutive cells — wrapping
across rows as needed — so each written cell is (byte, A) and its attribute
byte is A, not the default; it leaves every cell outside the written range
unchanged and performs no scroll; and a newline byte invokes exactly the
newline handling of print_character. -/
theorem C7_colored_write (s : ConsoleState) (l : List Nat) (A : Nat)
    (hb : ∀ b ∈ l, 0 < b ∧ b < 128 ∧ b ≠ 9 ∧ b ≠ 10 ∧ b ≠ 13)
    (hA : A < 256) (hx : s.x < 80) (hy : s.y < 25)
    (hroom : s.y * SCREEN_WIDTH + s.x + l.length < CHARACTERS_PER_SCREEN) :
    (∀ i, i < l.length →
      readCell (print_colored_string s (some l) A).screen (s.y * SCREEN_WIDTH + s.x + i)
          = l.getD i 0 ||| (A <<< 8) ∧
      readCell (print_colored_string s (some l) A).screen (s.y * SCREEN_WIDTH + s.x + i) / 256
          = A) ∧
    (∀ j, j < s.y * SCREEN_WIDTH + s.x ∨ s.y * SCREEN_WIDTH + s.x + l.length ≤ j →
      readCell (print_colored_string s (some l) A).screen j = readCell s.screen j) ∧
    (∀ t : ConsoleState, print_colored_char A t 10 = print_character t 10) ∧
    (print_colored_string s (some l) A).scrolls = s.scrolls := by
  obtain ⟨m, x, y, k⟩ := s
  dsimp only at hx hy hroom ⊢
  simp only [SCREEN_WIDTH, CHARACTERS_PER_SCREEN, SCREEN_HEIGHT] at hroom ⊢
  have key := foldl_colored_run_off A hA l m (y * 80 + x) k
      (fun b h => ⟨(hb b h).2.1, (hb b h).2.2.2.1⟩) (by omega)
  rw [show (y * 80 + x) % 80 = x from by omega,
      show (y * 80 + x) / 80 = y from by omega] at key
  have hstr : print_colored_string ⟨m, x, y, k⟩ (some l) A
      = ⟨placeCells m (y * 80 + x) (l.map (fun b => b ||| (A <<< 8))),
         (y * 80 + x + l.length) % 80, (y * 80 + x + l.length) / 80, k⟩ := by
    show (l.takeWhile (fun b => b ≠ 0)).foldl (print_colored_char A) ⟨m, x, y, k⟩ = _
    rw [List.takeWhile_eq_self_iff.mpr
        (fun b h => decide_eq_true (show b ≠ 0 from by have := (hb b h).1; omega))]
    exact key
  rw [hstr]
  refine ⟨?_, ?_, fun t => by simp [print_colored_char], rfl⟩
  · intro i hi
    rw [placeCells_digit, if_pos (by simp only [List.length_map]; omega)]
    have hidx : y * 80 + x + i - (y * 80 + x) = i := by omega
    have hmem : l.getD i 0 ∈ l := by
      rw [List.getD_eq_getElem l 0 hi]
      exact List.getElem_mem hi
    have hbi := hb _ hmem
    have hmap : (l.map (fun b => b ||| (A <<< 8))).getD i 0 = l.getD i 0 ||| (A <<< 8) := by
      rw [List.getD_eq_getElem _ _ (by simpa using hi), List.getD_eq_getElem l 0 hi,
        List.getElem_map]
    rw [hidx, hmap, Nat.mod_eq_of_lt (cell_lor_lt _ _ (by omega) hA)]
    exact ⟨rfl, attr_byte_arith _ hbi.2.1 _ hA⟩
  · intro j hj
    rw [placeCells_digit, if_neg (by simp only [List.length_map]; omega)]

/-- C7 witness: a three-byte colored write starting at (78, 0) wraps across
the row boundary: its third byte lands at linear offset 80, the first cell of
row 1, with the requested attribute, and no scroll occurs. -/
theorem C7_colored_write_witness :
    readCell (print_colored_string ⟨blankRun CHARACTERS_PER_SCREEN, 78, 0, 0⟩
        (some [72, 105, 33]) COLOR_YELLOW).screen (0 * SCREEN_WIDTH + 78 + 2)
      = 33 ||| (COLOR_YELLOW <<< 8) ∧
    (print_colored_string ⟨blankRun CHARACTERS_PER_SCREEN, 78, 0, 0⟩
        (some [72, 105, 33]) COLOR_YELLOW).scrolls = 0 :=
  ⟨((C7_colored_write ⟨blankRun CHARACTERS_PER_SCREEN, 78, 0, 0⟩ [72, 105, 33] COLOR_YELLOW
      (by decide) (by decide) (by decide) (by decide) (by decide)).1 2 (by decide)).1,
   (C7_colored_write ⟨blankRun CHARACTERS_PER_SCREEN, 78, 0, 0⟩ [72, 105, 33] COLOR_YELLOW
      (by decide) (by decide) (by decide) (by decide) (by decide)).2.2.2⟩

/-- C9: running the full splash composer (kernel_main) on a fresh framebuffer
produces exactly the section-6 layout (specSplashScreen: the listed
(row, col, color, text) entries over an otherwise blank screen), and the final
cursor is (2, 23). -/
theorem C9_splash_layout :
    (kernel_main freshState).screen = specSplashScreen ∧
    (kernel_main freshState).x = 2 ∧ (kernel_main freshState).y = 23 := by
  rw [splash_main]
  exact ⟨rfl, rfl, rfl⟩

/-! ### Sign extension of high bytes -/

set_option maxRecDepth 2000 in
lemma hi_attr_arith :
    ∀ d, d < 128 → ∀ a, a < 256 → charToCell (128 + d) a / 256 = 255 := by decide

/-- C10: for every byte c in 0x80..0xFF (negative as a signed char), both
print_character and print_colored_string store a cell whose attribute byte is
0xFF — not the default attribute and not the requested color — because c is
sign-extended to int before being OR-ed with the shifted attribute. -/
theorem C10_sign_extension (s : ConsoleState) (c color : Nat)
    (hc1 : 128 ≤ c) (hc2 : c < 256) (hcol : color < 256) (hx : s.x < 79) :
    readCell (print_character s c).screen (s.y * SCREEN_WIDTH + s.x) / 256 = 0xFF ∧
    readCell (print_colored_string s (some [c]) color).screen
        (s.y * SCREEN_WIDTH + s.x) / 256 = 0xFF ∧
    (0xFF : Nat) ≠ DEFAULT_ATTRIBUTE := by
  obtain ⟨d, hd, rfl⟩ : ∃ d, d < 128 ∧ c = 128 + d := ⟨c - 128, by omega, by omega⟩
  obtain ⟨m, x, y, k⟩ := s
  dsimp only at hx ⊢
  refine ⟨?_, ?_, by decide⟩
  · rw [print_character_mk m x y k (128 + d) (by omega) (by omega) (by omega) (by omega)]
    dsimp only
    rw [readCell_writeCell_self, charToCell_mod]
    exact hi_attr_arith d hd DEFAULT_ATTRIBUTE (by decide)
  · show readCell ((([128 + d].takeWhile (fun b => b ≠ 0)).foldl
        (print_colored_char color) ⟨m, x, y, k⟩).screen) (y * SCREEN_WIDTH + x) / 256 = 255
    rw [takeWhile_nonzero_singleton (128 + d) (by omega), List.foldl_cons, List.foldl_nil,
      print_colored_char_mk m x y k (128 + d) color (by omega) (by omega)]
    dsimp only
    rw [readCell_writeCell_self, charToCell_mod]
    exact hi_attr_arith d hd color hcol

set_option maxRecDepth 4000 in
/-- C10 witness: byte 200 printed at the origin of the fresh framebuffer, in
both plain and colored (LIGHT_BLUE = 9) mode, stores attribute byte 0xFF. -/
theorem C10_sign_extension_witness :
    readCell (print_character ⟨blankRun CHARACTERS_PER_SCREEN, 0, 0, 0⟩ 200).screen
        (0 * SCREEN_WIDTH + 0) / 256 = 0xFF ∧
    readCell (print_colored_string ⟨blankRun CHARACTERS_PER_SCREEN, 0, 0, 0⟩
        (some [200]) 9).screen (0 * SCREEN_WIDTH + 0) / 256 = 0xFF :=
  ⟨(C10_sign_extension ⟨blankRun CHARACTERS_PER_SCREEN, 0, 0, 0⟩ 200 9
      (by decide) (by decide) (by decide) (by decide)).1,
   (C10_sign_extension ⟨blankRun CHARACTERS_PER_SCREEN, 0, 0, 0⟩ 200 9
      (by decide) (by decide) (by decide) (by decide)).2.1⟩
